import Mathlib

/-!
Verification of the image → caption → story → speech pipeline in `src/app.py`
(MrJava020703/Image-to-text-to-speech-model).

The program is sequential glue around three external model services. We embed
it shallowly: each external service is an oracle stored in an `Env` record, and
each pipeline function returns a result together with the list of observable
events (network calls and file writes) it performs, in order. Python
exceptions are modelled with `Except`.
-/

namespace ImageStory

/-- One candidate record returned by the captioning model
(`transformers.pipeline("image-to-text", ...)`); the source reads its
`generated_text` field (src/app.py line 45). -/
structure Candidate where
  generated_text : String
deriving Repr, DecidableEq

/-- An HTTP request as issued by `requests.post` at src/app.py line 92:
method, url, header list, and a JSON-object body of string pairs. -/
structure HttpRequest where
  method : String
  url : String
  headers : List (String × String)
  body : List (String × String)
deriving Repr, DecidableEq

/-- An HTTP response: a status code and raw content bytes
(`response.content`, src/app.py line 94). -/
structure HttpResponse where
  status : Nat
  content : List Nat
deriving Repr, DecidableEq

/-- Observable events of one pipeline run, in program order. -/
inductive Event where
  /-- Invocation of the local captioning model on an image reference
  (src/app.py lines 43-45). -/
  | captionCall (model : String) (url : String)
  /-- Network call to the hosted chat-completion service with a model
  identifier, a temperature, and the submitted prompt (src/app.py
  lines 69-73). -/
  | llmCall (model : String) (temperature : Nat) (prompt : String)
  /-- The HTTP POST to the speech-synthesis service (src/app.py line 92). -/
  | speechPost (req : HttpRequest)
  /-- A local file written with the given contents, truncating any prior
  content (`open(name, "wb")`, src/app.py lines 93-94 and 117-118). -/
  | fileWrite (name : String) (contents : List Nat)
deriving Repr, DecidableEq

/-- Errors a pipeline stage can fail with (Python exceptions; names follow
the spec taxonomy in §7). -/
inductive PipelineError where
  /-- The captioning model could not read or process the image. -/
  | inputError
  /-- `[0]` applied to an empty candidate list (Python `IndexError`). -/
  | indexError
  /-- Missing API credentials. -/
  | authenticationError
deriving Repr, DecidableEq

/-- The environment of one run: the two environment-provided credentials
(src/app.py lines 16-17) and the three external services as oracles.
`image_to_text` returns `none` when the underlying model raises (unreadable
image or model failure); `chat_complete` maps (model, temperature, prompt) to
the single completion text; `http_post` maps a request to its response. -/
structure Env where
  huggingface_api_token : Option String
  openai_api_key : Option String
  image_to_text : String → Option (List Candidate)
  chat_complete : String → Nat → String → String
  http_post : HttpRequest → HttpResponse

/-- Python's rendering of an optional string inside an f-string:
`f"Bearer {token}"` prints `None` itself when the variable is `None`
(src/app.py line 87 performs no presence check on the token). -/
def pyOptStr : Option String → String
  | some s => s
  | none => "None"

/-- The captioning model identifier (src/app.py line 43). -/
def captionModelName : String := "nlpconnect/vit-gpt2-image-captioning"

/-- Embeds `generate_text_from_image` (src/app.py lines 37-49): invokes the
captioning model on the image reference and returns the `generated_text`
field of candidate `[0]`. An empty candidate list makes the `[0]` access an
`IndexError`; a model/input failure is the oracle's `none`. -/
def generate_text_from_image (env : Env) (url : String) :
    Except PipelineError String × List Event :=
  match env.image_to_text url with
  | none => (.error .inputError, [.captionCall captionModelName url])
  | some [] => (.error .indexError, [.captionCall captionModelName url])
  | some (c :: _) => (.ok c.generated_text, [.captionCall captionModelName url])

/-- The fixed template text before the substitution point of the f-string
`prompt_template` (src/app.py lines 59-65), byte for byte. -/
def promptBeforeContext : String :=
  "\n    You are a story teller;\n    You can generate a short story based on a simple narrative, the story should be no more than 20 words;\n    \n    CONTEXT: "

/-- The fixed template text after the substitution point of the f-string
`prompt_template` (src/app.py lines 59-65), byte for byte. -/
def promptAfterContext : String := "\n    STORY:\n    "

/-- The prompt `generate_story_from_text` builds: the fixed template with the
scenario substituted at its single substitution point (src/app.py
lines 59-65). -/
def prompt_template (scenario : String) : String :=
  promptBeforeContext ++ scenario ++ promptAfterContext

/-- Modelled from the spec: the hosted language-model client constructed at
src/app.py line 69 (`ChatOpenAI(model_name="gpt-3.5-turbo", temperature=1)`)
is library code not present in this repository; per the spec (§4.2, §8) it
"fails with `AuthenticationError` if API credentials are absent", at
construction and hence before any network call. -/
def chatOpenAIInit (key : Option String) : Except PipelineError Unit :=
  match key with
  | none => .error .authenticationError
  | some _ => .ok ()

/-- Embeds `generate_story_from_text` (src/app.py lines 52-77): builds the
prompt from the scenario, constructs the chat client with model identifier
"gpt-3.5-turbo" and temperature 1, submits the prompt, and returns the
model's completion unchanged. -/
def generate_story_from_text (env : Env) (scenario : String) :
    Except PipelineError String × List Event :=
  match chatOpenAIInit env.openai_api_key with
  | .error e => (.error e, [])
  | .ok _ =>
    let generated_story := env.chat_complete "gpt-3.5-turbo" 1 (prompt_template scenario)
    (.ok generated_story, [.llmCall "gpt-3.5-turbo" 1 (prompt_template scenario)])

/-- The fixed speech-service endpoint (src/app.py line 86). -/
def API_URL : String :=
  "https://api-inference.huggingface.co/models/espnet/kan-bayashi_ljspeech_vits"

/-- The request `generate_speech_from_text` issues (src/app.py lines 86-92):
a POST to `API_URL` with the bearer-token header and the JSON body
`\x7b"inputs": message\x7d`. -/
def speechRequest (token : Option String) (message : String) : HttpRequest :=
  { method := "POST"
    url := API_URL
    headers := [("Authorization", "Bearer " ++ pyOptStr token)]
    body := [("inputs", message)] }

/-- Embeds `generate_speech_from_text` (src/app.py lines 80-94): issues one
POST to the fixed endpoint and writes `response.content` to
`generated_audio.flac`, with no status or content-type check. The Python
function has no `return` statement, so it returns `None` (here `Unit`),
not the audio bytes. -/
def generate_speech_from_text (env : Env) (message : String) :
    Except PipelineError Unit × List Event :=
  let req := speechRequest env.huggingface_api_token message
  let response := env.http_post req
  (.ok (), [.speechPost req, .fileWrite "generated_audio.flac" response.content])

/-- Embeds the pipeline portion of `main` (src/app.py lines 114-124) for one
uploaded file with name `fileName` and contents `bytes_data`: the upload is
persisted under its original name, then caption, story and speech run in
sequence, each consuming the previous result; a raised exception aborts the
run. On success `main` surfaces the scenario and the story to the UI. -/
def main_pipeline (env : Env) (fileName : String) (bytes_data : List Nat) :
    Except PipelineError (String × String) × List Event :=
  let e0 : List Event := [.fileWrite fileName bytes_data]
  match generate_text_from_image env fileName with
  | (.error e, t1) => (.error e, e0 ++ t1)
  | (.ok scenario, t1) =>
    match generate_story_from_text env scenario with
    | (.error e, t2) => (.error e, e0 ++ t1 ++ t2)
    | (.ok story, t2) =>
      match generate_speech_from_text env story with
      | (.error e, t3) => (.error e, e0 ++ t1 ++ t2 ++ t3)
      | (.ok _, t3) => (.ok (scenario, story), e0 ++ t1 ++ t2 ++ t3)

/-- Whether an event is a network call to the language-model service. -/
def Event.isLlmCall : Event → Bool
  | .llmCall _ _ _ => true
  | _ => false

/-- Whether an event is a network call to the speech service. -/
def Event.isSpeechPost : Event → Bool
  | .speechPost _ => true
  | _ => false

/-- Number of occurrences of `needle` as a substring of `hay` (one count per
starting position). -/
def countOccur (needle : List Char) : List Char → Nat
  | [] => if needle.isPrefixOf ([] : List Char) then 1 else 0
  | c :: t => (if needle.isPrefixOf (c :: t) then 1 else 0) + countOccur needle t

/-- String version of `countOccur`. -/
def countOccurS (needle hay : String) : Nat :=
  countOccur needle.data hay.data

/-- Whether an event is a local file write. -/
def Event.isFileWrite : Event → Bool
  | .fileWrite _ _ => true
  | _ => false

/-- A concrete run environment: both credentials present, the captioning model
returns two candidates, and the speech service answers 200 with four bytes. -/
def envA : Env :=
  { huggingface_api_token := some "hf-token"
    openai_api_key := some "sk-key"
    image_to_text := fun _ => some [⟨"a cat sitting on a windowsill"⟩, ⟨"a cat"⟩]
    chat_complete := fun _ _ _ => "The cat watched the rain from its windowsill."
    http_post := fun _ => ⟨200, [70, 76, 65, 67]⟩ }

/-- Like `envA`, but the captioning model raises (unreadable image). -/
def envBadImage : Env := { envA with image_to_text := fun _ => none }

/-- Like `envA`, but the captioning model returns an empty candidate list. -/
def envNoCandidates : Env := { envA with image_to_text := fun _ => some [] }

/-- Like `envA`, but the speech-service bearer token is absent. -/
def envNoHfToken : Env := { envA with huggingface_api_token := none }

/-- Like `envA`, but the language-model API key is absent. -/
def envNoOpenAIKey : Env := { envA with openai_api_key := none }

/-- If `needle` is a prefix of `hay`, it occurs at least once in `hay`. -/
theorem one_le_countOccur_of_isPrefixOf (s hay : List Char)
    (h : s.isPrefixOf hay = true) : 1 ≤ countOccur s hay := by
  cases hay with
  | nil => simp [countOccur, h]
  | cons c t => simp [countOccur, h]

/-- A list occurs at least once in any list of the form `p ++ (s ++ q)`. -/
theorem one_le_countOccur_append (s p q : List Char) :
    1 ≤ countOccur s (p ++ (s ++ q)) := by
  induction p with
  | nil =>
    simp only [List.nil_append]
    exact one_le_countOccur_of_isPrefixOf s (s ++ q)
      (List.isPrefixOf_iff_prefix.mpr (List.prefix_append s q))
  | cons c p ih =>
    have h2 : countOccur s ((c :: p) ++ (s ++ q)) =
        (if s.isPrefixOf ((c :: p) ++ (s ++ q)) then 1 else 0) +
          countOccur s (p ++ (s ++ q)) := by
      rw [List.cons_append, countOccur]
    rw [h2]
    split <;> omega

/-- The scenario occurs at least once, as a substring, in the prompt built
from it. -/
theorem one_le_countOccurS_prompt (scenario : String) :
    1 ≤ countOccurS scenario (prompt_template scenario) := by
  unfold countOccurS prompt_template
  rw [String.data_append, String.data_append, List.append_assoc]
  exact one_le_countOccur_append scenario.data promptBeforeContext.data
    promptAfterContext.data

/-- C3: for every story string, `generate_speech_from_text` issues exactly one
HTTP POST, to the fixed speech-service URL, with an Authorization bearer-token
header, and a JSON body whose sole key is "inputs" and whose value equals the
story string. -/
theorem narrate_single_post (env : Env) (message : String) :
    (generate_speech_from_text env message).2.filter Event.isSpeechPost =
      [Event.speechPost (speechRequest env.huggingface_api_token message)] ∧
    (speechRequest env.huggingface_api_token message).method = "POST" ∧
    (speechRequest env.huggingface_api_token message).url = API_URL ∧
    (speechRequest env.huggingface_api_token message).headers =
      [("Authorization", "Bearer " ++ pyOptStr env.huggingface_api_token)] ∧
    (speechRequest env.huggingface_api_token message).body =
      [("inputs", message)] := by
  refine ⟨?_, rfl, rfl, rfl, rfl⟩
  simp [generate_speech_from_text, Event.isSpeechPost, Event.isFileWrite]

/-- C4: for every story string and every environment (hence every HTTP
response the speech service may return, whatever its status code),
`generate_speech_from_text` raises no error and its only file write puts the
raw response body, verbatim, under the fixed name `generated_audio.flac`. -/
theorem narrate_writes_raw_body (env : Env) (message : String) :
    (generate_speech_from_text env message).1 = Except.ok () ∧
    (generate_speech_from_text env message).2.filter Event.isFileWrite =
      [Event.fileWrite "generated_audio.flac"
        (env.http_post (speechRequest env.huggingface_api_token message)).content] := by
  refine ⟨rfl, ?_⟩
  simp [generate_speech_from_text, Event.isSpeechPost, Event.isFileWrite]

/-- C5: whenever the captioning model succeeds with a non-empty candidate
list, `generate_text_from_image` returns exactly the `generated_text` field of
the first candidate, even when further candidates exist. -/
theorem caption_first_candidate (env : Env) (url : String) (c : Candidate)
    (cs : List Candidate) (h : env.image_to_text url = some (c :: cs)) :
    generate_text_from_image env url =
      (Except.ok c.generated_text, [Event.captionCall captionModelName url]) := by
  simp [generate_text_from_image, h]

/-- C5 witness: on `envA`, whose captioning model returns two candidates for
`cat.jpg`, the caption is the first candidate's text. -/
theorem caption_first_candidate_witness :
    generate_text_from_image envA "cat.jpg" =
      (Except.ok "a cat sitting on a windowsill",
       [Event.captionCall captionModelName "cat.jpg"]) :=
  caption_first_candidate envA "cat.jpg" ⟨"a cat sitting on a windowsill"⟩
    [⟨"a cat"⟩] rfl

/-- C8: `generate_speech_from_text` has no return statement, so at the failing
input (story "hello", service answering 200 with the audio bytes
[70, 76, 65, 67]) it returns Python's `None` (here `Except.ok ()`), not the
audio artifact; the audio bytes reach only the file write. -/
theorem narrate_returns_none :
    (generate_speech_from_text envA "hello").1 = Except.ok () ∧
    (generate_speech_from_text envA "hello").2.filter Event.isFileWrite =
      [Event.fileWrite "generated_audio.flac" [70, 76, 65, 67]] := by
  exact ⟨rfl, rfl⟩

/-- C9: whenever the language-model API key is present, the story
`generate_story_from_text` returns equals, verbatim, the single completion the
model returned for the submitted prompt — no length enforcement and no
transformation at all. -/
theorem tell_returns_completion (env : Env) (scenario : String) (k : String)
    (hk : env.openai_api_key = some k) :
    generate_story_from_text env scenario =
      (Except.ok (env.chat_complete "gpt-3.5-turbo" 1 (prompt_template scenario)),
       [Event.llmCall "gpt-3.5-turbo" 1 (prompt_template scenario)]) := by
  simp [generate_story_from_text, chatOpenAIInit, hk]

/-- C9 witness: on `envA` the returned story is exactly the completion of
`envA.chat_complete`. -/
theorem tell_returns_completion_witness :
    generate_story_from_text envA "a cat" =
      (Except.ok "The cat watched the rain from its windowsill.",
       [Event.llmCall "gpt-3.5-turbo" 1 (prompt_template "a cat")]) := by
  have h := tell_returns_completion envA "a cat" "sk-key" rfl
  rw [h]
  rfl

/-- C10: an empty candidate list makes `generate_text_from_image` fail with an
index-out-of-range error instead of returning a scenario; and, conversely,
every scenario it does return is the `generated_text` of the first of at least
one model candidate. -/
theorem caption_requires_candidate (env : Env) (url : String) :
    (env.image_to_text url = some [] →
      generate_text_from_image env url =
        (Except.error PipelineError.indexError,
         [Event.captionCall captionModelName url])) ∧
    (∀ s t, generate_text_from_image env url = (Except.ok s, t) →
      ∃ c cs, env.image_to_text url = some (c :: cs) ∧ s = c.generated_text) := by
  constructor
  · intro h
    simp [generate_text_from_image, h]
  · intro s t h
    rcases h2 : env.image_to_text url with _ | cands
    · simp [generate_text_from_image, h2] at h
    · cases cands with
      | nil => simp [generate_text_from_image, h2] at h
      | cons c cs =>
        have h1 : generate_text_from_image env url =
            (Except.ok c.generated_text, [Event.captionCall captionModelName url]) := by
          simp [generate_text_from_image, h2]
        rw [h1] at h
        have h3 : c.generated_text = s := by
          have h4 := congrArg Prod.fst h
          simpa using h4
        exact ⟨c, cs, rfl, h3.symm⟩

/-- C10 witness: `envNoCandidates` produces the index error; on `envA` the
returned scenario comes from the first of the model's candidates. -/
theorem caption_requires_candidate_witness :
    generate_text_from_image envNoCandidates "cat.jpg" =
      (Except.error PipelineError.indexError,
       [Event.captionCall captionModelName "cat.jpg"]) ∧
    ∃ c cs, envA.image_to_text "cat.jpg" = some (c :: cs) ∧
      "a cat sitting on a windowsill" = c.generated_text :=
  ⟨(caption_requires_candidate envNoCandidates "cat.jpg").1 rfl,
   (caption_requires_candidate envA "cat.jpg").2 "a cat sitting on a windowsill"
     [Event.captionCall captionModelName "cat.jpg"] rfl⟩

set_option maxRecDepth 8000 in
/-- C2 counterexample: the claim that the prompt contains the scenario text
verbatim *exactly once* fails at the concrete scenario "story" — the fixed
template text itself contains "story" three times ("a story teller", "a short
story", "the story should"), so the submitted prompt contains it four times. -/
theorem prompt_scenario_not_exactly_once :
    countOccurS "story" (prompt_template "story") = 4 ∧
    countOccurS "story" (prompt_template "story") ≠ 1 := by
  constructor <;> decide

/-- C2 (amended): for every scenario string, whenever the language-model API
key is present, `generate_story_from_text` makes exactly one language-model
call, with model identifier "gpt-3.5-turbo" and temperature 1, whose prompt is
the fixed instructional template with the scenario embedded verbatim at its
single substitution point — hence the prompt contains the scenario at least
once (a scenario that also occurs inside the fixed template text occurs more
than once). -/
theorem storyteller_prompt_spec (env : Env) (scenario : String) (k : String)
    (hk : env.openai_api_key = some k) :
    (generate_story_from_text env scenario).2 =
      [Event.llmCall "gpt-3.5-turbo" 1
        (promptBeforeContext ++ scenario ++ promptAfterContext)] ∧
    1 ≤ countOccurS scenario (prompt_template scenario) := by
  constructor
  · simp [generate_story_from_text, chatOpenAIInit, hk, prompt_template]
  · exact one_le_countOccurS_prompt scenario

/-- C2 witness: the amended statement at `envA` and the scenario "a cat". -/
theorem storyteller_prompt_spec_witness :
    (generate_story_from_text envA "a cat").2 =
      [Event.llmCall "gpt-3.5-turbo" 1
        (promptBeforeContext ++ "a cat" ++ promptAfterContext)] ∧
    1 ≤ countOccurS "a cat" (prompt_template "a cat") :=
  storyteller_prompt_spec envA "a cat" "sk-key" rfl

/-- C6 counterexample: with the bearer token absent, `generate_speech_from_text`
does not fail with an authentication error: it succeeds, issuing the POST
anyway with the literal header value "Bearer None" (Python interpolates `None`
into the f-string) and writing the response body. -/
theorem narrate_missing_token_counterexample :
    envNoHfToken.huggingface_api_token = none ∧
    generate_speech_from_text envNoHfToken "hello" =
      (Except.ok (),
       [Event.speechPost
          { method := "POST"
            url := API_URL
            headers := [("Authorization", "Bearer None")]
            body := [("inputs", "hello")] },
        Event.fileWrite "generated_audio.flac" [70, 76, 65, 67]]) := by
  exact ⟨rfl, rfl⟩

/-- C6 (amended): if the speech-service bearer token is absent,
`generate_speech_from_text` raises no error at all: it proceeds with the HTTP
POST, whose Authorization header carries the literal value "Bearer None", and
writes the response body as usual. -/
theorem narrate_missing_token_proceeds (env : Env) (message : String)
    (h : env.huggingface_api_token = none) :
    (generate_speech_from_text env message).1 = Except.ok () ∧
    (generate_speech_from_text env message).2.filter Event.isSpeechPost =
      [Event.speechPost
        { method := "POST"
          url := API_URL
          headers := [("Authorization", "Bearer None")]
          body := [("inputs", message)] }] := by
  constructor
  · rfl
  · simp [generate_speech_from_text, speechRequest, h, pyOptStr,
      Event.isSpeechPost, Event.isFileWrite]

/-- C6 witness: the amended statement at `envNoHfToken` and the story
"hello". -/
theorem narrate_missing_token_proceeds_witness :
    (generate_speech_from_text envNoHfToken "hello").1 = Except.ok () ∧
    (generate_speech_from_text envNoHfToken "hello").2.filter
        Event.isSpeechPost =
      [Event.speechPost
        { method := "POST"
          url := API_URL
          headers := [("Authorization", "Bearer None")]
          body := [("inputs", "hello")] }] :=
  narrate_missing_token_proceeds envNoHfToken "hello" rfl

/-- C7: if the language-model API key is absent, `generate_story_from_text`
fails with the authentication error at client construction, and its event
trace is empty — in particular no network call to the language-model service
is attempted. -/
theorem tell_missing_key_fails_fast (env : Env) (scenario : String)
    (h : env.openai_api_key = none) :
    generate_story_from_text env scenario =
      (Except.error PipelineError.authenticationError, []) := by
  simp [generate_story_from_text, chatOpenAIInit, h]

/-- C7 witness: on `envNoOpenAIKey` the storyteller fails with the
authentication error and makes no call. -/
theorem tell_missing_key_fails_fast_witness :
    generate_story_from_text envNoOpenAIKey "a cat" =
      (Except.error PipelineError.authenticationError, []) :=
  tell_missing_key_fails_fast envNoOpenAIKey "a cat" rfl

/-- C1: for every uploaded image, `main` runs the three stages strictly in
order — caption, then story generation, then speech synthesis — each stage's
sole input being the prior stage's output: when all stages succeed, the run's
event trace is exactly the upload write, the caption call on the uploaded
file's name, one language-model call whose prompt is built from the caption's
scenario, one speech POST whose body carries the language model's story, and
the audio file write. And if the caption stage fails, the trace contains no
language-model call and no speech POST at all. -/
theorem main_pipeline_stage_order (env : Env) (fileName : String)
    (bytes_data : List Nat) :
    (∀ c cs, env.image_to_text fileName = some (c :: cs) →
      ∀ k, env.openai_api_key = some k →
        main_pipeline env fileName bytes_data =
          (Except.ok (c.generated_text,
             env.chat_complete "gpt-3.5-turbo" 1 (prompt_template c.generated_text)),
           [Event.fileWrite fileName bytes_data,
            Event.captionCall captionModelName fileName,
            Event.llmCall "gpt-3.5-turbo" 1 (prompt_template c.generated_text),
            Event.speechPost (speechRequest env.huggingface_api_token
              (env.chat_complete "gpt-3.5-turbo" 1 (prompt_template c.generated_text))),
            Event.fileWrite "generated_audio.flac"
              (env.http_post (speechRequest env.huggingface_api_token
                (env.chat_complete "gpt-3.5-turbo" 1
                  (prompt_template c.generated_text)))).content])) ∧
    ((generate_text_from_image env fileName).1.isOk = false →
      (main_pipeline env fileName bytes_data).2.filter
        (fun ev => ev.isLlmCall || ev.isSpeechPost) = []) := by
  constructor
  · intro c cs h k hk
    simp [main_pipeline, generate_text_from_image, h, generate_story_from_text,
      chatOpenAIInit, hk, generate_speech_from_text]
  · intro h
    rcases h2 : env.image_to_text fileName with _ | cands
    · simp [main_pipeline, generate_text_from_image, h2,
        Event.isLlmCall, Event.isSpeechPost]
    · cases cands with
      | nil =>
        simp [main_pipeline, generate_text_from_image, h2,
          Event.isLlmCall, Event.isSpeechPost]
      | cons c cs =>
        rw [generate_text_from_image] at h
        rw [h2] at h
        simp [Except.isOk, Except.toBool] at h

/-- C1 witness: on `envA` (all stages succeed) the full run has the five
events in stage order with each output feeding the next stage; on
`envBadImage` (the captioning model raises) the run's trace has no
language-model call and no speech POST. -/
theorem main_pipeline_stage_order_witness :
    main_pipeline envA "cat.jpg" [9, 9] =
      (Except.ok ("a cat sitting on a windowsill",
         "The cat watched the rain from its windowsill."),
       [Event.fileWrite "cat.jpg" [9, 9],
        Event.captionCall captionModelName "cat.jpg",
        Event.llmCall "gpt-3.5-turbo" 1
          (prompt_template "a cat sitting on a windowsill"),
        Event.speechPost (speechRequest (some "hf-token")
          "The cat watched the rain from its windowsill."),
        Event.fileWrite "generated_audio.flac" [70, 76, 65, 67]]) ∧
    (main_pipeline envBadImage "cat.jpg" [9, 9]).2.filter
      (fun ev => ev.isLlmCall || ev.isSpeechPost) = [] := by
  constructor
  · have h := (main_pipeline_stage_order envA "cat.jpg" [9, 9]).1
      ⟨"a cat sitting on a windowsill"⟩ [⟨"a cat"⟩] rfl "sk-key" rfl
    rw [h]
    rfl
  · exact (main_pipeline_stage_order envBadImage "cat.jpg" [9, 9]).2 rfl

end ImageStory
